import Mathlib

/-!
Verification development for the Kays-Super-Predictor repository
(src/scraper.py and src/App.py), as a shallow embedding in Lean 4.

Conventions of the embedding:
* Python floats are modelled as rationals (`ℚ`); real-valued Poisson
  arithmetic (scipy) is modelled over `ℝ`.
* Calendar timestamps are modelled as integers (seconds); a `timedelta`
  of 3 days is the constant `3 * 86400`.
* JSON match objects from the remote API are the structure `ApiMatch`;
  rows of the persisted `predictions.csv` dataset are `PredRecord`.
* Remote fetching is modelled by passing the data a run would receive as
  explicit inputs (`CompData`, one per competition); writing the CSV is
  modelled by the `Option (List PredRecord)` result of `run_scraper`
  (`none` = no write happened).
-/

/-- One match object as returned by the football-data API: team names,
competition, kickoff date (seconds timestamp of the calendar date) and
time-of-day string, and the nullable full-time score
(`m['score']['fullTime']`). -/
structure ApiMatch where
  competitionName : String
  homeTeamName : String
  awayTeamName : String
  dateVal : ℤ
  timeStr : String
  scoreHome : Option ℤ
  scoreAway : Option ℤ
deriving DecidableEq

/-- One row of the persisted `predictions.csv` dataset, as built by
`run_scraper` in src/scraper.py.  A fixture row has `homeScore` and
`awayScore` equal to `none` (the empty CSV cell). -/
structure PredRecord where
  date : ℤ
  league : String
  homeTeam : String
  awayTeam : String
  time : String
  over15RateHome : ℚ
  over15RateAway : ℚ
  modelProb : ℚ
  homeScore : Option ℤ
  awayScore : Option ℤ
deriving DecidableEq

/-! ## RateAggregator: `calculate_over15_rate` (src/scraper.py lines 50-66) -/

/-- The list comprehension of lines 52-55: matches in which the team
appears on either side. -/
def relevant_matches (ms : List ApiMatch) (team_name : String) : List ApiMatch :=
  ms.filter fun m => m.homeTeamName == team_name || m.awayTeamName == team_name

/-- The condition of lines 61-63: both full-time goal values are present
and their sum is at least 2. -/
def isOver15 (m : ApiMatch) : Bool :=
  match m.scoreHome, m.scoreAway with
  | some h, some a => decide (2 ≤ h + a)
  | _, _ => false

/-- The counting loop of lines 59-64. -/
def over15_count (ms : List ApiMatch) : ℕ :=
  (ms.filter isOver15).length

/-- `calculate_over15_rate` (lines 50-66): the fraction of a team's
matches with over 1.5 goals, defaulting to 0.5 when the team appears in
no match.  The threshold 2 is the hard-coded constant of line 63. -/
def calculate_over15_rate (ms : List ApiMatch) (team_name : String) : ℚ :=
  let rel := relevant_matches ms team_name
  if rel.isEmpty then 1/2
  else (over15_count rel : ℚ) / (rel.length : ℚ)

theorem over15_count_le_length (ms : List ApiMatch) : over15_count ms ≤ ms.length :=
  List.length_filter_le _ _

theorem calculate_over15_rate_nonneg (ms : List ApiMatch) (team_name : String) :
    0 ≤ calculate_over15_rate ms team_name := by
  simp only [calculate_over15_rate]
  split
  · norm_num
  · exact div_nonneg (by positivity) (by positivity)

theorem calculate_over15_rate_le_one (ms : List ApiMatch) (team_name : String) :
    calculate_over15_rate ms team_name ≤ 1 := by
  simp only [calculate_over15_rate]
  split
  · norm_num
  · rename_i hne
    have hlen : 0 < (relevant_matches ms team_name).length := by
      rcases h : relevant_matches ms team_name with _ | ⟨a, l⟩
      · rw [h] at hne; simp at hne
      · simp [h]
    rw [div_le_one (by exact_mod_cast hlen)]
    exact_mod_cast over15_count_le_length _

/-- Claim C6: for every set of historical matches and every team name,
`calculate_over15_rate` returns a value in [0, 1]; when the team appears
in no match of the set, it returns exactly 0.5, never an error or null.
(The goal threshold is the single constant 2 hard-coded in the source.) -/
theorem claim_C6_rate_bounds_and_default (ms : List ApiMatch) (team_name : String) :
    0 ≤ calculate_over15_rate ms team_name ∧
    calculate_over15_rate ms team_name ≤ 1 ∧
    ((∀ m ∈ ms, m.homeTeamName ≠ team_name ∧ m.awayTeamName ≠ team_name) →
      calculate_over15_rate ms team_name = 1/2) := by
  refine ⟨calculate_over15_rate_nonneg _ _, calculate_over15_rate_le_one _ _, fun h => ?_⟩
  have hrel : relevant_matches ms team_name = [] := by
    apply List.filter_eq_nil_iff.mpr
    intro m hm
    rcases h m hm with ⟨h1, h2⟩
    simp [h1, h2]
  simp only [calculate_over15_rate]
  rw [hrel]
  rfl

/-- Witness for C6 at a concrete input: the team "A" appears in no match
of a one-match set, and the returned rate is exactly 0.5. -/
theorem claim_C6_witness :
    0 ≤ calculate_over15_rate [⟨"PL", "B", "C", 0, "12:00", some 1, some 0⟩] "A" ∧
    calculate_over15_rate [⟨"PL", "B", "C", 0, "12:00", some 1, some 0⟩] "A" ≤ 1 ∧
    ((∀ m ∈ [(⟨"PL", "B", "C", 0, "12:00", some 1, some 0⟩ : ApiMatch)],
        m.homeTeamName ≠ "A" ∧ m.awayTeamName ≠ "A") →
      calculate_over15_rate [⟨"PL", "B", "C", 0, "12:00", some 1, some 0⟩] "A" = 1/2) :=
  claim_C6_rate_bounds_and_default _ _

/-- Concrete data for claim C2: a match of team "A" whose home goal
value is absent, and a finished match of team "A" with 2 goals. -/
def c2MissingMatch : ApiMatch := ⟨"PL", "A", "C", 0, "12:00", none, some 1⟩

def c2PlayedMatch : ApiMatch := ⟨"PL", "A", "B", 0, "12:00", some 2, some 0⟩

/-- Claim C2 counterexample: team "A" has one finished match with 2
goals, so its rate is 1.  Adding a match of "A" whose home goal value is
absent changes the returned rate to 1/2, because line 66 of
src/scraper.py divides by the number of all relevant matches, including
those with a missing score. -/
theorem claim_C2_counterexample :
    c2MissingMatch.scoreHome = none ∧
    calculate_over15_rate [c2PlayedMatch] "A" = 1 ∧
    calculate_over15_rate [c2MissingMatch, c2PlayedMatch] "A" = 1/2 ∧
    calculate_over15_rate [c2MissingMatch, c2PlayedMatch] "A" ≠
      calculate_over15_rate [c2PlayedMatch] "A" := by
  have hr1 : relevant_matches [c2PlayedMatch] "A" = [c2PlayedMatch] := rfl
  have hc1 : over15_count [c2PlayedMatch] = 1 := rfl
  have hr2 : relevant_matches [c2MissingMatch, c2PlayedMatch] "A"
      = [c2MissingMatch, c2PlayedMatch] := rfl
  have hc2 : over15_count [c2MissingMatch, c2PlayedMatch] = 1 := rfl
  have e1 : calculate_over15_rate [c2PlayedMatch] "A" = 1 := by
    simp only [calculate_over15_rate, hr1, hc1]
    norm_num
  have e2 : calculate_over15_rate [c2MissingMatch, c2PlayedMatch] "A" = 1/2 := by
    simp only [calculate_over15_rate, hr2, hc2]
    norm_num
  refine ⟨rfl, e1, e2, ?_⟩
  rw [e1, e2]
  norm_num

theorem isOver15_of_missing (m : ApiMatch)
    (hmiss : m.scoreHome = none ∨ m.scoreAway = none) : isOver15 m = false := by
  rcases hmiss with h | h
  · simp [isOver15, h]
  · rcases hsh : m.scoreHome with _ | v <;> simp [isOver15, h, hsh]

/-- Claim C2 (amended): a match with an absent home or away goal value
never contributes to the numerator of `calculate_over15_rate`, but it
does count in the denominator whenever the team appears in it; hence
adding such a match never increases the returned rate (and it can
strictly decrease it, as the counterexample shows). -/
theorem claim_C2_missing_score_denominator (ms : List ApiMatch) (m : ApiMatch) (t : String)
    (hmiss : m.scoreHome = none ∨ m.scoreAway = none) :
    over15_count (relevant_matches (m :: ms) t) = over15_count (relevant_matches ms t) ∧
    calculate_over15_rate (m :: ms) t ≤ calculate_over15_rate ms t := by
  have hnot15 := isOver15_of_missing m hmiss
  by_cases hin : (m.homeTeamName == t || m.awayTeamName == t) = true
  · have hrel : relevant_matches (m :: ms) t = m :: relevant_matches ms t := by
      simp [relevant_matches, List.filter_cons, hin]
    have hcount : over15_count (m :: relevant_matches ms t)
        = over15_count (relevant_matches ms t) := by
      simp [over15_count, List.filter_cons, hnot15]
    refine ⟨by rw [hrel]; exact hcount, ?_⟩
    rcases hrm : relevant_matches ms t with _ | ⟨a, l⟩
    · rw [hrm] at hrel
      norm_num [calculate_over15_rate, hrel, hrm, over15_count, List.filter_cons, hnot15]
    · rw [hrm] at hrel hcount
      have hlen : (0 : ℚ) < ((a :: l).length : ℚ) := by
        exact_mod_cast Nat.succ_pos l.length
      have hlen1 : (0 : ℚ) < ((m :: a :: l).length : ℚ) := by
        exact_mod_cast Nat.succ_pos (a :: l).length
      simp only [calculate_over15_rate, hrel, hrm, hcount, List.isEmpty_cons,
        Bool.false_eq_true, if_false]
      rw [div_le_div_iff₀ hlen1 hlen]
      have hc : (0 : ℚ) ≤ (over15_count (a :: l) : ℚ) := by positivity
      have hll : ((a :: l).length : ℚ) ≤ ((m :: a :: l).length : ℚ) := by
        exact_mod_cast Nat.le_succ (a :: l).length
      nlinarith
  · have hrel : relevant_matches (m :: ms) t = relevant_matches ms t := by
      simp [relevant_matches, List.filter_cons, hin]
    rw [show calculate_over15_rate (m :: ms) t
        = calculate_over15_rate ms t by simp only [calculate_over15_rate, hrel]]
    exact ⟨by rw [hrel], le_refl _⟩

/-- Witness for the amended C2 at a concrete input: prepending a
missing-score match of team "A" leaves the numerator unchanged and does
not increase the rate. -/
theorem claim_C2_witness :
    (c2MissingMatch.scoreHome = none ∨ c2MissingMatch.scoreAway = none) ∧
    (over15_count (relevant_matches [c2MissingMatch, c2PlayedMatch] "A") =
      over15_count (relevant_matches [c2PlayedMatch] "A") ∧
    calculate_over15_rate [c2MissingMatch, c2PlayedMatch] "A" ≤
      calculate_over15_rate [c2PlayedMatch] "A") :=
  ⟨Or.inl rfl, claim_C2_missing_score_denominator [c2PlayedMatch] c2MissingMatch "A" (Or.inl rfl)⟩

/-! ## ConfidenceCombiner: lines 118-129 of src/scraper.py -/

/-- Python's `round` to the nearest integer, ties to the even integer
(banker's rounding), on exact rationals. -/
def roundHalfEven (x : ℚ) : ℤ :=
  let f := Int.floor x
  let r := x - (f : ℚ)
  if r < 1/2 then f
  else if 1/2 < r then f + 1
  else if f % 2 = 0 then f else f + 1

/-- Python's `round(x, 2)`: round to two decimal places, ties to even. -/
def roundTo2 (x : ℚ) : ℚ := (roundHalfEven (x * 100) : ℚ) / 100

/-- Line 119: `model_prob = (rate_home + rate_away) / 2`. -/
def model_prob (rate_home rate_away : ℚ) : ℚ := (rate_home + rate_away) / 2

theorem roundHalfEven_mem (x : ℚ) :
    roundHalfEven x = Int.floor x ∨ roundHalfEven x = Int.floor x + 1 := by
  simp only [roundHalfEven]
  split
  · exact Or.inl rfl
  · split
    · exact Or.inr rfl
    · split
      · exact Or.inl rfl
      · exact Or.inr rfl

theorem roundHalfEven_nonneg (x : ℚ) (hx : 0 ≤ x) : 0 ≤ roundHalfEven x := by
  have hf : (0 : ℤ) ≤ Int.floor x := Int.floor_nonneg.mpr hx
  rcases roundHalfEven_mem x with h | h <;> omega

theorem roundHalfEven_le (x : ℚ) (b : ℤ) (hx : x ≤ (b : ℚ)) : roundHalfEven x ≤ b := by
  have hfb : Int.floor x ≤ b := by
    have := Int.floor_le_floor hx
    simpa using this
  rcases roundHalfEven_mem x with h | h
  · omega
  · by_cases hc : Int.floor x = b
    · have hfx : ((Int.floor x : ℤ) : ℚ) ≤ x := Int.floor_le x
      have hxeq : x - ((Int.floor x : ℤ) : ℚ) < 1/2 := by
        have hxb : x ≤ ((Int.floor x : ℤ) : ℚ) := by rw [hc]; exact hx
        linarith
      have hval : roundHalfEven x = Int.floor x := by
        simp only [roundHalfEven]
        rw [if_pos hxeq]
      omega
    · omega

theorem roundTo2_bounds (x : ℚ) (h0 : 0 ≤ x) (h1 : x ≤ 1) :
    0 ≤ roundTo2 x ∧ roundTo2 x ≤ 1 := by
  have hn : 0 ≤ roundHalfEven (x * 100) := roundHalfEven_nonneg _ (by linarith)
  have hu : roundHalfEven (x * 100) ≤ 100 := roundHalfEven_le _ 100 (by push_cast; linarith)
  constructor
  · unfold roundTo2
    have : (0 : ℚ) ≤ (roundHalfEven (x * 100) : ℚ) := by exact_mod_cast hn
    positivity
  · unfold roundTo2
    rw [div_le_one (by norm_num)]
    exact_mod_cast hu

/-- Claim C8: the combined match confidence stored by the pipeline
equals the arithmetic mean of the two team rates rounded to two
decimals, and for rates in [0, 1] it always lies in [0, 1].  It is a
pure function (`roundTo2 ∘ model_prob`) of the two input rates. -/
theorem claim_C8_confidence_mean (rate_home rate_away : ℚ)
    (hh0 : 0 ≤ rate_home) (hh1 : rate_home ≤ 1)
    (ha0 : 0 ≤ rate_away) (ha1 : rate_away ≤ 1) :
    roundTo2 (model_prob rate_home rate_away)
      = roundTo2 ((rate_home + rate_away) / 2) ∧
    0 ≤ roundTo2 (model_prob rate_home rate_away) ∧
    roundTo2 (model_prob rate_home rate_away) ≤ 1 := by
  have hmean0 : 0 ≤ model_prob rate_home rate_away := by
    unfold model_prob; linarith
  have hmean1 : model_prob rate_home rate_away ≤ 1 := by
    unfold model_prob; linarith
  rcases roundTo2_bounds _ hmean0 hmean1 with ⟨hb0, hb1⟩
  exact ⟨rfl, hb0, hb1⟩

/-- Witness for C8 at the spec's worked example: rates 0.75 and 0.70
combine to mean 0.725, which rounds half-to-even to 0.72. -/
theorem claim_C8_witness :
    (0 ≤ (3/4 : ℚ) ∧ (3/4 : ℚ) ≤ 1 ∧ 0 ≤ (7/10 : ℚ) ∧ (7/10 : ℚ) ≤ 1) ∧
    (roundTo2 (model_prob (3/4) (7/10)) = roundTo2 (((3/4) + (7/10)) / 2) ∧
     0 ≤ roundTo2 (model_prob (3/4) (7/10)) ∧ roundTo2 (model_prob (3/4) (7/10)) ≤ 1) ∧
    roundTo2 (model_prob (3/4) (7/10)) = 18/25 :=
  ⟨⟨by norm_num, by norm_num, by norm_num, by norm_num⟩,
   claim_C8_confidence_mean (3/4) (7/10) (by norm_num) (by norm_num) (by norm_num) (by norm_num),
   by
     have h1 : model_prob (3/4) (7/10) = 29/40 := by norm_num [model_prob]
     have h2 : ((29 : ℚ)/40) * 100 = 145/2 := by norm_num
     have h3 : Int.floor ((145 : ℚ)/2) = 72 := by norm_num
     have h4 : roundHalfEven (145/2) = 72 := by
       simp only [roundHalfEven, h3]
       norm_num
     simp only [roundTo2, h1, h2, h4]
     norm_num⟩

/-! ## IngestionPipeline: `run_scraper` (src/scraper.py lines 68-142) -/

/-- The look-ahead horizon of line 112: `timedelta(days=3)` in seconds. -/
def threeDays : ℤ := 3 * 86400

/-- Lines 88-100: a recently finished match becomes a row with
`Model_Prob` 0 and the actual final score. -/
def resultRecord (historical : List ApiMatch) (m : ApiMatch) : PredRecord :=
  { date := m.dateVal
    league := m.competitionName
    homeTeam := m.homeTeamName
    awayTeam := m.awayTeamName
    time := m.timeStr
    over15RateHome := roundTo2 (calculate_over15_rate historical m.homeTeamName)
    over15RateAway := roundTo2 (calculate_over15_rate historical m.awayTeamName)
    modelProb := 0
    homeScore := m.scoreHome
    awayScore := m.scoreAway }

/-- Lines 115-132: a scheduled fixture becomes a row with the combined
confidence and no score yet. -/
def fixtureRecord (historical : List ApiMatch) (f : ApiMatch) : PredRecord :=
  { date := f.dateVal
    league := f.competitionName
    homeTeam := f.homeTeamName
    awayTeam := f.awayTeamName
    time := f.timeStr
    over15RateHome := roundTo2 (calculate_over15_rate historical f.homeTeamName)
    over15RateAway := roundTo2 (calculate_over15_rate historical f.awayTeamName)
    modelProb := roundTo2 (model_prob (calculate_over15_rate historical f.homeTeamName)
      (calculate_over15_rate historical f.awayTeamName))
    homeScore := none
    awayScore := none }

/-- Lines 104-132: fixtures are skipped (line 112-113, `continue`) when
their date is strictly beyond `today + 3 days`; the rest become rows. -/
def fixtureRecords (today : ℤ) (historical fixtures : List ApiMatch) : List PredRecord :=
  (fixtures.filter fun f => !(decide (today + threeDays < f.dateVal))).map
    (fixtureRecord historical)

/-- The data one competition contributes to a run: the FINISHED history
(line 82), the payload of the recent-results request (line 86, `none`
when `make_request` returned no data) and the SCHEDULED fixtures
(line 103). -/
structure CompData where
  historical : List ApiMatch
  recentResults : Option (List ApiMatch)
  fixtures : List ApiMatch
deriving DecidableEq

/-- Lines 84-132: the rows one competition appends to `all_data`,
recent results first (lines 87-100), then kept fixtures (104-132). -/
def compRecords (today : ℤ) (c : CompData) : List PredRecord :=
  (match c.recentResults with
   | none => []
   | some rs => rs.map (resultRecord c.historical)) ++
  fixtureRecords today c.historical c.fixtures

/-- The whole `all_data` list accumulated by the loop of lines 80-132,
competitions in their configured order. -/
def collectedData (today : ℤ) (comps : List CompData) : List PredRecord :=
  (comps.map (compRecords today)).flatten

/-- The pandas dedup key of line 138: the `(Date, HomeTeam, AwayTeam)`
column triple. -/
def dedupKey (r : PredRecord) : ℤ × String × String := (r.date, r.homeTeam, r.awayTeam)

/-- Recursion of `drop_duplicates`: keep a row unless its key was
already seen earlier in the list. -/
def dropDupAux (seen : List (ℤ × String × String)) : List PredRecord → List PredRecord
  | [] => []
  | r :: rs =>
    if dedupKey r ∈ seen then dropDupAux seen rs
    else r :: dropDupAux (dedupKey r :: seen) rs

/-- `df.drop_duplicates(subset=['Date', 'HomeTeam', 'AwayTeam'])` of
line 138: pandas' default `keep='first'` retains, for every key, the
earliest row carrying it. -/
def drop_duplicates (l : List PredRecord) : List PredRecord := dropDupAux [] l

/-- `run_scraper` (lines 68-142), modelled as a function from the run's
inputs to the dataset it writes: `none` means the run wrote nothing
(missing or empty credential, line 69-71, or an empty `all_data`,
lines 135-142); `some d` means `predictions.csv` was replaced by `d`. -/
def run_scraper (apiToken : Option String) (today : ℤ) (comps : List CompData) :
    Option (List PredRecord) :=
  match apiToken with
  | none => none
  | some tok =>
    if tok = "" then none
    else
      let all_data := collectedData today comps
      if all_data.isEmpty then none
      else some (drop_duplicates all_data)

/-- The persisted snapshot after a run: the prior contents of
`predictions.csv` when the run wrote nothing, the new dataset otherwise. -/
def run_scraper_final (prior : Option (List PredRecord)) (apiToken : Option String)
    (today : ℤ) (comps : List CompData) : Option (List PredRecord) :=
  match run_scraper apiToken today comps with
  | none => prior
  | some d => some d

/-- Claim C7: a scheduled fixture dated strictly more than the look-ahead
horizon (3 days) past the run's current time produces no row, and a
fixture dated exactly at the boundary `today + 3 days` is included. -/
theorem claim_C7_horizon_boundary (today : ℤ) (historical fixtures : List ApiMatch) :
    (∀ r ∈ fixtureRecords today historical fixtures, r.date ≤ today + threeDays) ∧
    (∀ f ∈ fixtures, f.dateVal ≤ today + threeDays →
      fixtureRecord historical f ∈ fixtureRecords today historical fixtures) := by
  constructor
  · intro r hr
    simp only [fixtureRecords, List.mem_map, List.mem_filter] at hr
    obtain ⟨f, ⟨hf, hcond⟩, rfl⟩ := hr
    simp only [Bool.not_eq_true', decide_eq_false_iff_not, not_lt] at hcond
    simpa [fixtureRecord] using hcond
  · intro f hf hle
    simp only [fixtureRecords, List.mem_map]
    refine ⟨f, List.mem_filter.mpr ⟨hf, ?_⟩, rfl⟩
    simp only [Bool.not_eq_true', decide_eq_false_iff_not, not_lt]
    omega

/-- Concrete fixture for the C7 witness, dated exactly at the horizon
boundary of a run at time 0. -/
def c7BoundaryFixture : ApiMatch := ⟨"PL", "H", "A", 3 * 86400, "15:00", none, none⟩

/-- Witness for C7 at a concrete input: with the run time 0, the
boundary fixture (dated exactly 3 days later) is included. -/
theorem claim_C7_witness :
    (∀ r ∈ fixtureRecords 0 [] [c7BoundaryFixture], r.date ≤ 0 + threeDays) ∧
    (∀ f ∈ [c7BoundaryFixture], f.dateVal ≤ 0 + threeDays →
      fixtureRecord [] f ∈ fixtureRecords 0 [] [c7BoundaryFixture]) :=
  claim_C7_horizon_boundary 0 [] [c7BoundaryFixture]

/-! ## Dedup behaviour of line 138 (claim C1) -/

theorem dropDupAux_keys (l : List PredRecord) : ∀ seen : List (ℤ × String × String),
    ((dropDupAux seen l).map dedupKey).Nodup ∧
    ∀ k ∈ (dropDupAux seen l).map dedupKey, k ∉ seen := by
  induction l with
  | nil => intro seen; simp [dropDupAux]
  | cons r rs ih =>
    intro seen
    by_cases h : dedupKey r ∈ seen
    · simp only [dropDupAux, if_pos h]
      exact ih seen
    · simp only [dropDupAux, if_neg h]
      obtain ⟨ihn, ihs⟩ := ih (dedupKey r :: seen)
      refine ⟨?_, ?_⟩
    
    
      · simp only [List.map_cons, List.nodup_cons]
        exact ⟨fun hmem => (ihs _ hmem) (List.mem_cons_self _ _), ihn⟩
      · intro k hk
        simp only [List.map_cons, List.mem_cons] at hk
        rcases hk with rfl | hk
        · exact h
        · exact fun hks => (ihs k hk) (List.mem_cons_of_mem _ hks)

theorem dropDupAux_sublist (l : List PredRecord) : ∀ seen,
    List.Sublist (dropDupAux seen l) l := by
  induction l with
  | nil => intro seen; simp [dropDupAux]
  | cons r rs ih =>
    intro seen
    by_cases h : dedupKey r ∈ seen
    · simp only [dropDupAux, if_pos h]
      exact (ih seen).cons r
    · simp only [dropDupAux, if_neg h]
      exact (ih _).cons₂ r

theorem dropDupAux_first_wins (l : List PredRecord) :
    ∀ (seen : List (ℤ × String × String)) (r : PredRecord), r ∈ l → dedupKey r ∉ seen →
    ∃ s, s ∈ dropDupAux seen l ∧ dedupKey s = dedupKey r ∧
      l.find? (fun x => decide (dedupKey x = dedupKey r)) = some s := by
  induction l with
  | nil => intro seen r hr; simp at hr
  | cons a rs ih =>
    intro seen r hr hnotseen
    by_cases hkey : dedupKey a = dedupKey r
    · have hfind : (a :: rs).find? (fun x => decide (dedupKey x = dedupKey r)) = some a := by
        simp [List.find?_cons, hkey]
      have haseen : dedupKey a ∉ seen := by rw [hkey]; exact hnotseen
      refine ⟨a, ?_, hkey, hfind⟩
      simp only [dropDupAux, if_neg haseen]
      exact List.mem_cons_self _ _
    · have hfind : (a :: rs).find? (fun x => decide (dedupKey x = dedupKey r))
          = rs.find? (fun x => decide (dedupKey x = dedupKey r)) := by
        simp [List.find?_cons, hkey]
      have hrr : r ∈ rs := by
        rcases List.mem_cons.mp hr with rfl | h
        · exact absurd rfl hkey
        · exact h
      by_cases hs : dedupKey a ∈ seen
      · simp only [dropDupAux, if_pos hs]
        obtain ⟨s, hs1, hs2, hs3⟩ := ih seen r hrr hnotseen
        exact ⟨s, hs1, hs2, by rw [hfind]; exact hs3⟩
      · simp only [dropDupAux, if_neg hs]
        have hnot2 : dedupKey r ∉ dedupKey a :: seen := by
          intro hmem
          rcases List.mem_cons.mp hmem with heq | hmem2
          · exact hkey heq.symm
          · exact hnotseen hmem2
        obtain ⟨s, hs1, hs2, hs3⟩ := ih (dedupKey a :: seen) r hrr hnot2
        exact ⟨s, List.mem_cons_of_mem _ hs1, hs2, by rw [hfind]; exact hs3⟩

/-- Claim C1 (amended): after every ingestion run that persists a
dataset, the `(Date, HomeTeam, AwayTeam)` key is unique in the persisted
record set; when several collected records share a key, exactly one
survives and it is the one supplied EARLIEST in processing order
(pandas `drop_duplicates` defaults to `keep='first'`). -/
theorem claim_C1_dedup_first_wins (apiToken : Option String) (today : ℤ)
    (comps : List CompData) (out : List PredRecord)
    (hrun : run_scraper apiToken today comps = some out) :
    ((out.map dedupKey).Nodup ∧
     List.Sublist out (collectedData today comps) ∧
     ∀ r ∈ collectedData today comps, ∃ s, s ∈ out ∧ dedupKey s = dedupKey r ∧
       (collectedData today comps).find? (fun x => decide (dedupKey x = dedupKey r))
         = some s) := by
  have hout : out = drop_duplicates (collectedData today comps) := by
    rcases apiToken with _ | tok
    · simp [run_scraper] at hrun
    · by_cases htok : tok = ""
      · simp [run_scraper, htok] at hrun
      · by_cases hempty : (collectedData today comps).isEmpty
        · simp [run_scraper, htok, hempty] at hrun
        · simp [run_scraper, htok, hempty] at hrun
          exact hrun.symm
  subst hout
  refine ⟨(dropDupAux_keys _ []).1, dropDupAux_sublist _ [], fun r hr => ?_⟩
  exact dropDupAux_first_wins _ [] r hr (by simp)

/-- Concrete data for claim C1: one match that appears both as a recent
result and as a scheduled fixture in the same run, so the two rows share
the dedup key but differ in their fields. -/
def c1Match : ApiMatch := ⟨"Premier League", "H", "A", 0, "15:00", some 1, some 1⟩

def c1Comp : CompData := ⟨[], some [c1Match], [c1Match]⟩

theorem c1_run_eval : run_scraper (some "TOKEN") 0 [c1Comp]
    = some [resultRecord [] c1Match] := by
  simp [run_scraper, collectedData, compRecords, fixtureRecords, threeDays,
    drop_duplicates, dropDupAux, dedupKey, c1Comp, c1Match, resultRecord, fixtureRecord]

/-- Claim C1 counterexample: the run collects two records with the same
`(Date, HomeTeam, AwayTeam)` key, and the survivor is the one supplied
EARLIER in processing order (the recent-result row), not the later one
(the fixture row): pandas `drop_duplicates` defaults to `keep='first'`,
so last-write-wins is false. -/
theorem claim_C1_counterexample :
    collectedData 0 [c1Comp] = [resultRecord [] c1Match, fixtureRecord [] c1Match] ∧
    dedupKey (resultRecord [] c1Match) = dedupKey (fixtureRecord [] c1Match) ∧
    resultRecord [] c1Match ≠ fixtureRecord [] c1Match ∧
    run_scraper (some "TOKEN") 0 [c1Comp] = some [resultRecord [] c1Match] ∧
    fixtureRecord [] c1Match ∉ drop_duplicates (collectedData 0 [c1Comp]) := by
  have hcoll : collectedData 0 [c1Comp]
      = [resultRecord [] c1Match, fixtureRecord [] c1Match] := by
    simp [collectedData, compRecords, fixtureRecords, threeDays, c1Comp, c1Match]
  have hne : resultRecord [] c1Match ≠ fixtureRecord [] c1Match := by
    intro h
    have := congrArg PredRecord.homeScore h
    simp [resultRecord, fixtureRecord, c1Match] at this
  refine ⟨hcoll, rfl, hne, c1_run_eval, ?_⟩
  have hdrop : drop_duplicates (collectedData 0 [c1Comp]) = [resultRecord [] c1Match] := by
    rw [hcoll]
    simp [drop_duplicates, dropDupAux, dedupKey, resultRecord, fixtureRecord, c1Match]
  rw [hdrop]
  simp [hne.symm]

/-- Witness for the amended C1 at a concrete input: the run above
persists a dataset with pairwise distinct keys, drawn from the collected
records, and for every collected record the survivor with its key is the
first one carrying that key. -/
theorem claim_C1_witness :
    ((([resultRecord [] c1Match].map dedupKey).Nodup ∧
      List.Sublist [resultRecord [] c1Match] (collectedData 0 [c1Comp]) ∧
      ∀ r ∈ collectedData 0 [c1Comp], ∃ s, s ∈ [resultRecord [] c1Match] ∧
        dedupKey s = dedupKey r ∧
        (collectedData 0 [c1Comp]).find? (fun x => decide (dedupKey x = dedupKey r))
          = some s)) :=
  claim_C1_dedup_first_wins (some "TOKEN") 0 [c1Comp] [resultRecord [] c1Match] c1_run_eval

/-- Claim C10: when the run collects no records at all (every competition
yields no usable data) or the API credential is missing (or empty, which
line 69 also treats as missing), `run_scraper` performs no write and the
previously persisted snapshot is left unchanged. -/
theorem claim_C10_no_write_on_empty (prior : Option (List PredRecord))
    (apiToken : Option String) (today : ℤ) (comps : List CompData)
    (h : apiToken = none ∨ apiToken = some "" ∨ collectedData today comps = []) :
    run_scraper apiToken today comps = none ∧
    run_scraper_final prior apiToken today comps = prior := by
  have hnone : run_scraper apiToken today comps = none := by
    rcases h with h | h | h
    · simp [run_scraper, h]
    · simp [run_scraper, h]
    · rcases apiToken with _ | tok
      · simp [run_scraper]
      · by_cases htok : tok = ""
        · simp [run_scraper, htok]
        · simp [run_scraper, htok, h]
  exact ⟨hnone, by simp [run_scraper_final, hnone]⟩

/-- Prior snapshot row used by the C10 witness. -/
def c10PriorRow : PredRecord := ⟨0, "L", "H", "A", "12:00", 0, 0, 0, none, none⟩

/-- Witness for C10 at a concrete input: a run over one competition that
returned no usable data leaves a non-empty prior snapshot in place. -/
theorem claim_C10_witness :
    ((some "TOKEN" : Option String) = none ∨ (some "TOKEN" : Option String) = some "" ∨
      collectedData 0 [⟨[], none, []⟩] = []) ∧
    (run_scraper (some "TOKEN") 0 [⟨[], none, []⟩] = none ∧
     run_scraper_final (some [c10PriorRow]) (some "TOKEN") 0 [⟨[], none, []⟩]
       = some [c10PriorRow]) :=
  ⟨Or.inr (Or.inr (by simp [collectedData, compRecords, fixtureRecords])),
   claim_C10_no_write_on_empty (some [c10PriorRow]) (some "TOKEN") 0 [⟨[], none, []⟩]
     (Or.inr (Or.inr (by simp [collectedData, compRecords, fixtureRecords])))⟩

/-! ## PickSelector: `get_top_picks` (src/App.py lines 118-133) -/

/-- The combined mask of lines 124-129: both team rates at least 0.70
and the model probability at least 0.70. -/
def passesFilters (r : PredRecord) : Bool :=
  (decide (7/10 ≤ r.over15RateHome) && decide (7/10 ≤ r.over15RateAway)) &&
    decide (7/10 ≤ r.modelProb)

/-- The descending-confidence order used by
`sort_values(by='Model_Prob', ascending=False)` on line 132. -/
def picksOrder (a b : PredRecord) : Prop := b.modelProb ≤ a.modelProb

instance : DecidableRel picksOrder :=
  fun a b => inferInstanceAs (Decidable (b.modelProb ≤ a.modelProb))

/-- `get_top_picks` (lines 118-133): filter by the two thresholds, sort
by `Model_Prob` descending, keep the first three rows.  The sort is
modelled as a stable descending sort; every property proved below is
invariant under the exact permutation pandas applies to tied rows. -/
def get_top_picks (df : List PredRecord) : List PredRecord :=
  if df.isEmpty then []
  else (List.insertionSort picksOrder (df.filter passesFilters)).take 3

/-- Claim C5: `get_top_picks` returns at most 3 records, every returned
record has both exceeds-rates and the confidence at least 0.70, and when
no record qualifies it returns the empty list rather than an error. -/
theorem claim_C5_top_picks (df : List PredRecord) :
    (get_top_picks df).length ≤ 3 ∧
    (∀ r ∈ get_top_picks df,
      7/10 ≤ r.over15RateHome ∧ 7/10 ≤ r.over15RateAway ∧ 7/10 ≤ r.modelProb) ∧
    ((∀ r ∈ df,
        ¬(7/10 ≤ r.over15RateHome ∧ 7/10 ≤ r.over15RateAway ∧ 7/10 ≤ r.modelProb)) →
      get_top_picks df = []) := by
  refine ⟨?_, ?_, ?_⟩
  · unfold get_top_picks
    split
    · simp
    · rw [List.length_take]
      exact min_le_left _ _
  · intro r hr
    unfold get_top_picks at hr
    split at hr
    · simp at hr
    · have h1 : r ∈ List.insertionSort picksOrder (df.filter passesFilters) :=
        List.take_subset _ _ hr
      have h2 : r ∈ df.filter passesFilters :=
        (List.perm_insertionSort picksOrder _).subset h1
      have h3 : passesFilters r = true := (List.mem_filter.mp h2).2
      simp only [passesFilters, Bool.and_eq_true, decide_eq_true_iff] at h3
      exact ⟨h3.1.1, h3.1.2, h3.2⟩
  · intro h
    have hfil : df.filter passesFilters = [] := by
      apply List.filter_eq_nil_iff.mpr
      intro r hr
      have := h r hr
      simp only [passesFilters]
      intro hcontra
      simp only [Bool.and_eq_true, decide_eq_true_iff] at hcontra
      exact this ⟨hcontra.1.1, hcontra.1.2, hcontra.2⟩
    unfold get_top_picks
    split
    · rfl
    · simp [hfil, List.insertionSort]

/-- Qualifying row used by the C5 witness. -/
def c5Row : PredRecord := ⟨0, "L", "H", "A", "12:00", 3/4, 3/4, 3/4, none, none⟩

/-- Witness for C5 at a concrete one-row input. -/
theorem claim_C5_witness :
    (get_top_picks [c5Row]).length ≤ 3 ∧
    (∀ r ∈ get_top_picks [c5Row],
      7/10 ≤ r.over15RateHome ∧ 7/10 ≤ r.over15RateAway ∧ 7/10 ≤ r.modelProb) ∧
    ((∀ r ∈ [c5Row],
        ¬(7/10 ≤ r.over15RateHome ∧ 7/10 ≤ r.over15RateAway ∧ 7/10 ≤ r.modelProb)) →
      get_top_picks [c5Row] = []) :=
  claim_C5_top_picks [c5Row]

/-! ## RemoteClient: `make_request` (src/scraper.py lines 20-32) -/

/-- An HTTP response: status code and body. -/
structure HttpResponse where
  status : ℕ
  body : String

/-- Observable actions of `make_request`: issuing a GET (line 23) and
the 60-second cooldown sleep (line 28). -/
inductive ReqEvent where
  | httpGet
  | sleep60
deriving DecidableEq

/-- The `for _ in range(3)` loop of lines 22-31, over the stream of
responses the server would give to the successive attempts: 200 returns
the payload, 429 sleeps 60 seconds and retries, anything else returns
`None` at once; an exhausted loop falls through to `return None`
(line 32).  The result is paired with the trace of performed actions. -/
def make_request_loop (resp : ℕ → HttpResponse) : ℕ → ℕ → Option String × List ReqEvent
  | _, 0 => (none, [])
  | i, n+1 =>
    if (resp i).status = 200 then (some (resp i).body, [ReqEvent.httpGet])
    else if (resp i).status = 429 then
      ((make_request_loop resp (i+1) n).1,
        ReqEvent.httpGet :: ReqEvent.sleep60 :: (make_request_loop resp (i+1) n).2)
    else (none, [ReqEvent.httpGet])

/-- `make_request` (lines 20-32): the loop with its 3-attempt budget. -/
def make_request (resp : ℕ → HttpResponse) : Option String × List ReqEvent :=
  make_request_loop resp 0 3

/-- Number of request attempts in a trace. -/
def countGets (tr : List ReqEvent) : ℕ := tr.count ReqEvent.httpGet

/-- Number of 60-second cooldown sleeps in a trace. -/
def countSleeps (tr : List ReqEvent) : ℕ := tr.count ReqEvent.sleep60

/-- Claim C9: `make_request` makes at most 3 attempts per call; only a
429 status leads to a further attempt, and every attempted 429 is
answered by exactly one 60-second cooldown sleep; a non-200, non-429
status makes the call return `None` immediately with no retry; and
exhausting all attempts on 429s returns `None` (a defined no-data
result) rather than raising. -/
theorem claim_C9_retry_policy (resp : ℕ → HttpResponse) :
    countGets (make_request resp).2 ≤ 3 ∧
    (∀ i, i + 1 < countGets (make_request resp).2 → (resp i).status = 429) ∧
    countSleeps (make_request resp).2 =
      (List.range (countGets (make_request resp).2)).countP
        (fun i => (resp i).status == 429) ∧
    ((∀ i, i < 3 → (resp i).status = 429) → (make_request resp).1 = none) ∧
    (∀ i, i < countGets (make_request resp).2 →
      (resp i).status ≠ 200 → (resp i).status ≠ 429 →
        (make_request resp).1 = none ∧ countGets (make_request resp).2 = i + 1) := by
  by_cases h0a : (resp 0).status = 200
  · have hmr : make_request resp = (some (resp 0).body, [ReqEvent.httpGet]) := by
      norm_num [make_request, make_request_loop, h0a]
    have hg : countGets [ReqEvent.httpGet] = 1 := by decide
    have hs : countSleeps [ReqEvent.httpGet] = 0 := by decide
    simp only [hmr, hg, hs]
    refine ⟨by norm_num, ?_, ?_, ?_, ?_⟩
    · intro i hi
      omega
    · simp [List.range_succ, h0a]
    · intro hall
      exact absurd h0a (by simp [hall 0 (by norm_num)])
    · intro i hi h200 h429
      have : i = 0 := by omega
      subst this
      exact absurd h0a h200
  · by_cases h0b : (resp 0).status = 429
    · by_cases h1a : (resp 1).status = 200
      · have hmr : make_request resp = (some (resp 1).body,
            [ReqEvent.httpGet, ReqEvent.sleep60, ReqEvent.httpGet]) := by
          norm_num [make_request, make_request_loop, h0a, h0b, h1a]
        have hg : countGets [ReqEvent.httpGet, ReqEvent.sleep60, ReqEvent.httpGet] = 2 := by
          decide
        have hs : countSleeps [ReqEvent.httpGet, ReqEvent.sleep60, ReqEvent.httpGet] = 1 := by
          decide
        simp only [hmr, hg, hs]
        refine ⟨by norm_num, ?_, ?_, ?_, ?_⟩
        · intro i hi
          have : i = 0 := by omega
          subst this
          exact h0b
        · simp [List.range_succ, h0b, h1a]
        · intro hall
          exact absurd h1a (by simp [hall 1 (by norm_num)])
        · intro i hi h200 h429
          have : i = 0 ∨ i = 1 := by omega
          rcases this with rfl | rfl
          · exact absurd h0b h429
          · exact absurd h1a h200
      · by_cases h1b : (resp 1).status = 429
        · by_cases h2a : (resp 2).status = 200
          · have hmr : make_request resp = (some (resp 2).body,
                [ReqEvent.httpGet, ReqEvent.sleep60, ReqEvent.httpGet, ReqEvent.sleep60,
                  ReqEvent.httpGet]) := by
              norm_num [make_request, make_request_loop, h0a, h0b, h1a, h1b, h2a]
            have hg : countGets [ReqEvent.httpGet, ReqEvent.sleep60, ReqEvent.httpGet,
                ReqEvent.sleep60, ReqEvent.httpGet] = 3 := by decide
            have hs : countSleeps [ReqEvent.httpGet, ReqEvent.sleep60, ReqEvent.httpGet,
                ReqEvent.sleep60, ReqEvent.httpGet] = 2 := by decide
            simp only [hmr, hg, hs]
            refine ⟨by norm_num, ?_, ?_, ?_, ?_⟩
            · intro i hi
              have : i = 0 ∨ i = 1 := by omega
              rcases this with rfl | rfl
              · exact h0b
              · exact h1b
            · simp [List.range_succ, h0b, h1b, h2a]
            · intro hall
              exact absurd h2a (by simp [hall 2 (by norm_num)])
            · intro i hi h200 h429
              have : i = 0 ∨ i = 1 ∨ i = 2 := by omega
              rcases this with rfl | rfl | rfl
              · exact absurd h0b h429
              · exact absurd h1b h429
              · exact absurd h2a h200
          · by_cases h2b : (resp 2).status = 429
            · have hmr : make_request resp = (none,
                  [ReqEvent.httpGet, ReqEvent.sleep60, ReqEvent.httpGet, ReqEvent.sleep60,
                    ReqEvent.httpGet, ReqEvent.sleep60]) := by
                norm_num [make_request, make_request_loop, h0a, h0b, h1a, h1b, h2a, h2b]
              have hg : countGets [ReqEvent.httpGet, ReqEvent.sleep60, ReqEvent.httpGet,
                  ReqEvent.sleep60, ReqEvent.httpGet, ReqEvent.sleep60] = 3 := by decide
              have hs : countSleeps [ReqEvent.httpGet, ReqEvent.sleep60, ReqEvent.httpGet,
                  ReqEvent.sleep60, ReqEvent.httpGet, ReqEvent.sleep60] = 3 := by decide
              simp only [hmr, hg, hs]
              refine ⟨by norm_num, ?_, ?_, ?_, ?_⟩
              · intro i hi
                have : i = 0 ∨ i = 1 := by omega
                rcases this with rfl | rfl
                · exact h0b
                · exact h1b
              · simp [List.range_succ, h0b, h1b, h2b]
              · intro hall
                trivial
              · intro i hi h200 h429
                have : i = 0 ∨ i = 1 ∨ i = 2 := by omega
                rcases this with rfl | rfl | rfl
                · exact absurd h0b h429
                · exact absurd h1b h429
                · exact absurd h2b h429
            · have hmr : make_request resp = (none,
                  [ReqEvent.httpGet, ReqEvent.sleep60, ReqEvent.httpGet, ReqEvent.sleep60,
                    ReqEvent.httpGet]) := by
                norm_num [make_request, make_request_loop, h0a, h0b, h1a, h1b, h2a, h2b]
              have hg : countGets [ReqEvent.httpGet, ReqEvent.sleep60, ReqEvent.httpGet,
                  ReqEvent.sleep60, ReqEvent.httpGet] = 3 := by decide
              have hs : countSleeps [ReqEvent.httpGet, ReqEvent.sleep60, ReqEvent.httpGet,
                  ReqEvent.sleep60, ReqEvent.httpGet] = 2 := by decide
              simp only [hmr, hg, hs]
              refine ⟨by norm_num, ?_, ?_, ?_, ?_⟩
              · intro i hi
                have : i = 0 ∨ i = 1 := by omega
                rcases this with rfl | rfl
                · exact h0b
                · exact h1b
              · simp [List.range_succ, h0b, h1b, h2a, h2b]
              · intro hall
                exact absurd (hall 2 (by norm_num)) h2b
              · intro i hi h200 h429
                have : i = 0 ∨ i = 1 ∨ i = 2 := by omega
                rcases this with rfl | rfl | rfl
                · exact absurd h0b h429
                · exact absurd h1b h429
                · exact ⟨trivial, rfl⟩
        · have hmr : make_request resp = (none,
              [ReqEvent.httpGet, ReqEvent.sleep60, ReqEvent.httpGet]) := by
            norm_num [make_request, make_request_loop, h0a, h0b, h1a, h1b]
          have hg : countGets [ReqEvent.httpGet, ReqEvent.sleep60, ReqEvent.httpGet] = 2 := by
            decide
          have hs : countSleeps [ReqEvent.httpGet, ReqEvent.sleep60, ReqEvent.httpGet] = 1 := by
            decide
          simp only [hmr, hg, hs]
          refine ⟨by norm_num, ?_, ?_, ?_, ?_⟩
          · intro i hi
            have : i = 0 := by omega
            subst this
            exact h0b
          · simp [List.range_succ, h0b, h1a, h1b]
          · intro hall
            exact absurd (hall 1 (by norm_num)) h1b
          · intro i hi h200 h429
            have : i = 0 ∨ i = 1 := by omega
            rcases this with rfl | rfl
            · exact absurd h0b h429
            · exact ⟨trivial, rfl⟩
    · have hmr : make_request resp = (none, [ReqEvent.httpGet]) := by
        norm_num [make_request, make_request_loop, h0a, h0b]
      have hg : countGets [ReqEvent.httpGet] = 1 := by decide
      have hs : countSleeps [ReqEvent.httpGet] = 0 := by decide
      simp only [hmr, hg, hs]
      refine ⟨by norm_num, ?_, ?_, ?_, ?_⟩
      · intro i hi
        omega
      · simp [List.range_succ, h0a, h0b]
      · intro hall
        exact absurd (hall 0 (by norm_num)) h0b
      · intro i hi h200 h429
        have : i = 0 := by omega
        subst this
        exact ⟨trivial, rfl⟩

/-- Response stream used by the C9 witness: a 429 followed by a 200. -/
def c9Responses : ℕ → HttpResponse :=
  fun i => if i = 0 then ⟨429, ""⟩ else ⟨200, "payload"⟩

/-- Witness for C9 at a concrete response stream (429 then 200): the
claim's guarantees hold for that call. -/
theorem claim_C9_witness :
    countGets (make_request c9Responses).2 ≤ 3 ∧
    (∀ i, i + 1 < countGets (make_request c9Responses).2 → (c9Responses i).status = 429) ∧
    countSleeps (make_request c9Responses).2 =
      (List.range (countGets (make_request c9Responses).2)).countP
        (fun i => (c9Responses i).status == 429) ∧
    ((∀ i, i < 3 → (c9Responses i).status = 429) → (make_request c9Responses).1 = none) ∧
    (∀ i, i < countGets (make_request c9Responses).2 →
      (c9Responses i).status ≠ 200 → (c9Responses i).status ≠ 429 →
        (make_request c9Responses).1 = none ∧
        countGets (make_request c9Responses).2 = i + 1) :=
  claim_C9_retry_policy c9Responses

/-! ## ScorelineModel: the Poisson loop of src/App.py lines 280-291 -/

/-- `scipy.stats.poisson.pmf(k, mu)`: the Poisson probability mass
`exp(-mu) * mu^k / k!`. -/
noncomputable def poisson_pmf (mu : ℝ) (k : ℕ) : ℝ :=
  Real.exp (-mu) * mu ^ k / (Nat.factorial k : ℝ)

/-- The accumulation loop of lines 281-287: for every scoreline (i, j)
with i, j < maxGoals, the joint mass goes to the home-win bucket when
i > j, the draw bucket when i = j, the away-win bucket when i < j.
`App.py` hard-codes `range(10)`, i.e. `maxGoals = 10`. -/
noncomputable def outcome_probs (home_exp away_exp : ℝ) (maxGoals : ℕ) : ℝ × ℝ × ℝ :=
  (∑ i ∈ Finset.range maxGoals, ∑ j ∈ Finset.range maxGoals,
     if j < i then poisson_pmf home_exp i * poisson_pmf away_exp j else 0,
   ∑ i ∈ Finset.range maxGoals, ∑ j ∈ Finset.range maxGoals,
     if i = j then poisson_pmf home_exp i * poisson_pmf away_exp j else 0,
   ∑ i ∈ Finset.range maxGoals, ∑ j ∈ Finset.range maxGoals,
     if i < j then poisson_pmf home_exp i * poisson_pmf away_exp j else 0)

theorem poisson_pmf_nonneg (mu : ℝ) (hmu : 0 ≤ mu) (k : ℕ) : 0 ≤ poisson_pmf mu k := by
  unfold poisson_pmf
  apply div_nonneg
  · exact mul_nonneg (le_of_lt (Real.exp_pos _)) (pow_nonneg hmu k)
  · positivity

theorem sum_poisson_pmf_eq (mu : ℝ) (n : ℕ) :
    ∑ k ∈ Finset.range n, poisson_pmf mu k
      = Real.exp (-mu) * ∑ k ∈ Finset.range n, mu ^ k / (Nat.factorial k : ℝ) := by
  rw [Finset.mul_sum]
  apply Finset.sum_congr rfl
  intro k _
  rw [poisson_pmf, mul_div_assoc]

theorem sum_poisson_pmf_le_one (mu : ℝ) (hmu : 0 ≤ mu) (n : ℕ) :
    ∑ k ∈ Finset.range n, poisson_pmf mu k ≤ 1 := by
  rw [sum_poisson_pmf_eq]
  have h1 : ∑ k ∈ Finset.range n, mu ^ k / (Nat.factorial k : ℝ) ≤ Real.exp mu := by
    simpa using Real.sum_le_exp_of_nonneg hmu n
  have h2 : Real.exp (-mu) * ∑ k ∈ Finset.range n, mu ^ k / (Nat.factorial k : ℝ)
      ≤ Real.exp (-mu) * Real.exp mu :=
    mul_le_mul_of_nonneg_left h1 (le_of_lt (Real.exp_pos _))
  calc Real.exp (-mu) * ∑ k ∈ Finset.range n, mu ^ k / (Nat.factorial k : ℝ)
      ≤ Real.exp (-mu) * Real.exp mu := h2
    _ = 1 := by rw [← Real.exp_add]; simp

theorem outcome_probs_total (home_exp away_exp : ℝ) (maxGoals : ℕ) :
    (outcome_probs home_exp away_exp maxGoals).1 +
      (outcome_probs home_exp away_exp maxGoals).2.1 +
      (outcome_probs home_exp away_exp maxGoals).2.2
    = (∑ i ∈ Finset.range maxGoals, poisson_pmf home_exp i) *
        (∑ j ∈ Finset.range maxGoals, poisson_pmf away_exp j) := by
  simp only [outcome_probs]
  rw [Finset.sum_mul_sum]
  rw [← Finset.sum_add_distrib, ← Finset.sum_add_distrib]
  apply Finset.sum_congr rfl
  intro i _
  rw [← Finset.sum_add_distrib, ← Finset.sum_add_distrib]
  apply Finset.sum_congr rfl
  intro j _
  rcases lt_trichotomy i j with hlt | heq | hgt
  · rw [if_neg (by omega), if_neg (by omega), if_pos hlt]
    ring
  · rw [if_neg (by omega), if_pos heq, if_neg (by omega)]
    ring
  · rw [if_pos hgt, if_neg (by omega), if_neg (by omega)]
    ring

theorem outcome_probs_comp_nonneg (home_exp away_exp : ℝ) (maxGoals : ℕ)
    (hh : 0 ≤ home_exp) (ha : 0 ≤ away_exp) :
    0 ≤ (outcome_probs home_exp away_exp maxGoals).1 ∧
    0 ≤ (outcome_probs home_exp away_exp maxGoals).2.1 ∧
    0 ≤ (outcome_probs home_exp away_exp maxGoals).2.2 := by
  simp only [outcome_probs]
  refine ⟨?_, ?_, ?_⟩ <;>
  · apply Finset.sum_nonneg
    intro i _
    apply Finset.sum_nonneg
    intro j _
    split
    · exact mul_nonneg (poisson_pmf_nonneg _ hh _) (poisson_pmf_nonneg _ ha _)
    · exact le_refl 0

/-- Claim C3 (amended): for every nonnegative expected-goals pair and
every truncation bound, the three outcome probabilities each lie in
[0, 1] and their sum lies in [0, 1].  The claimed lower bound 0.999 on
the sum does not hold over the whole claimed range h, a ∈ [0, 20] at
`maxGoals = 10` (see the counterexample at h = a = 20). -/
theorem claim_C3_outcome_probabilities (home_exp away_exp : ℝ) (maxGoals : ℕ)
    (hh : 0 ≤ home_exp) (ha : 0 ≤ away_exp) :
    (0 ≤ (outcome_probs home_exp away_exp maxGoals).1 ∧
      (outcome_probs home_exp away_exp maxGoals).1 ≤ 1) ∧
    (0 ≤ (outcome_probs home_exp away_exp maxGoals).2.1 ∧
      (outcome_probs home_exp away_exp maxGoals).2.1 ≤ 1) ∧
    (0 ≤ (outcome_probs home_exp away_exp maxGoals).2.2 ∧
      (outcome_probs home_exp away_exp maxGoals).2.2 ≤ 1) ∧
    0 ≤ (outcome_probs home_exp away_exp maxGoals).1 +
        (outcome_probs home_exp away_exp maxGoals).2.1 +
        (outcome_probs home_exp away_exp maxGoals).2.2 ∧
    (outcome_probs home_exp away_exp maxGoals).1 +
        (outcome_probs home_exp away_exp maxGoals).2.1 +
        (outcome_probs home_exp away_exp maxGoals).2.2 ≤ 1 := by
  obtain ⟨n1, n2, n3⟩ := outcome_probs_comp_nonneg home_exp away_exp maxGoals hh ha
  have htot := outcome_probs_total home_exp away_exp maxGoals
  have hSh0 : 0 ≤ ∑ i ∈ Finset.range maxGoals, poisson_pmf home_exp i :=
    Finset.sum_nonneg fun i _ => poisson_pmf_nonneg _ hh i
  have hSa0 : 0 ≤ ∑ j ∈ Finset.range maxGoals, poisson_pmf away_exp j :=
    Finset.sum_nonneg fun j _ => poisson_pmf_nonneg _ ha j
  have hSh1 := sum_poisson_pmf_le_one home_exp hh maxGoals
  have hSa1 := sum_poisson_pmf_le_one away_exp ha maxGoals
  have htot1 : (outcome_probs home_exp away_exp maxGoals).1 +
      (outcome_probs home_exp away_exp maxGoals).2.1 +
      (outcome_probs home_exp away_exp maxGoals).2.2 ≤ 1 := by
    rw [htot]
    exact mul_le_one₀ hSh1 hSa0 hSa1
  exact ⟨⟨n1, by linarith⟩, ⟨n2, by linarith⟩, ⟨n3, by linarith⟩, by linarith, htot1⟩

/-- Witness for the amended C3 at the spec's reference inputs
`homeExpectedGoals = 1.4, awayExpectedGoals = 1.1, maxGoals = 10`. -/
theorem claim_C3_witness :
    (0 ≤ (14/10 : ℝ)) ∧ (0 ≤ (11/10 : ℝ)) ∧
    ((0 ≤ (outcome_probs (14/10) (11/10) 10).1 ∧
      (outcome_probs (14/10) (11/10) 10).1 ≤ 1) ∧
    (0 ≤ (outcome_probs (14/10) (11/10) 10).2.1 ∧
      (outcome_probs (14/10) (11/10) 10).2.1 ≤ 1) ∧
    (0 ≤ (outcome_probs (14/10) (11/10) 10).2.2 ∧
      (outcome_probs (14/10) (11/10) 10).2.2 ≤ 1) ∧
    0 ≤ (outcome_probs (14/10) (11/10) 10).1 +
        (outcome_probs (14/10) (11/10) 10).2.1 +
        (outcome_probs (14/10) (11/10) 10).2.2 ∧
    (outcome_probs (14/10) (11/10) 10).1 +
        (outcome_probs (14/10) (11/10) 10).2.1 +
        (outcome_probs (14/10) (11/10) 10).2.2 ≤ 1) :=
  ⟨by norm_num, by norm_num,
   claim_C3_outcome_probabilities (14/10) (11/10) 10 (by norm_num) (by norm_num)⟩

/-- Claim C3 counterexample: at the in-range expected-goals pair
h = a = 20 with `maxGoals = 10`, the truncated joint distribution keeps
almost no mass: the three outcome probabilities sum to less than 0.999
(in fact to less than 0.81), so the claimed bound
`pHomeWin + pDraw + pAwayWin ∈ [0.999, 1.0]` fails. -/
theorem claim_C3_counterexample :
    (0 : ℝ) ≤ 20 ∧ ((20 : ℝ) ≤ 20 ∧ 10 ≤ (10 : ℕ)) ∧
    (outcome_probs 20 20 10).1 + (outcome_probs 20 20 10).2.1 +
      (outcome_probs 20 20 10).2.2 < 999/1000 := by
  refine ⟨by norm_num, ⟨le_refl _, le_refl _⟩, ?_⟩
  rw [outcome_probs_total]
  have hS0 : 0 ≤ ∑ k ∈ Finset.range 10, poisson_pmf 20 k :=
    Finset.sum_nonneg fun k _ => poisson_pmf_nonneg _ (by norm_num) k
  have hT : ∑ k ∈ Finset.range 10, (20 : ℝ) ^ k / (Nat.factorial k : ℝ) ≤ 2500000 := by
    norm_num [Finset.sum_range_succ, Nat.factorial]
  have hexp1 : (27/10 : ℝ) ≤ Real.exp 1 := by
    have := Real.exp_one_gt_d9
    norm_num at this ⊢
    linarith
  have hexp20 : (27/10 : ℝ) ^ 20 ≤ Real.exp 20 := by
    have hpow : (27/10 : ℝ) ^ 20 ≤ Real.exp 1 ^ 20 :=
      pow_le_pow_left₀ (by norm_num) hexp1 20
    have hEq : Real.exp 1 ^ 20 = Real.exp 20 := by
      rw [← Real.exp_nat_mul]
      norm_num
    linarith [hEq ▸ hpow]
  have hbig : (2500000 : ℝ) < (9/10) * (27/10 : ℝ) ^ 20 := by norm_num
  have hSlt : ∑ k ∈ Finset.range 10, poisson_pmf 20 k < 9/10 := by
    rw [sum_poisson_pmf_eq, Real.exp_neg]
    have hpos : (0 : ℝ) < Real.exp 20 := Real.exp_pos 20
    rw [inv_mul_eq_div, div_lt_iff₀ hpos]
    have : (9/10 : ℝ) * (27/10 : ℝ) ^ 20 ≤ (9/10) * Real.exp 20 := by nlinarith
    linarith
  nlinarith
